import Mathlib

/-
Verification of the anonymous-posting relay bot (`bot.py`).

The embedding models the `on_message` handler's DM pipeline and the
`ConfirmationView` button/timeout state machine.  Effects (DMs to the
submitter, edits of the confirmation prompt, sends to the anonymous
channel, sends to the moderator-log channel, operator log lines) are
recorded in a `RelayResult` trace.  Fallible external calls — the prompt
send, channel resolution, `attachment.read()`, the public-channel send
and the mod-log send — are resolved by an `Env` oracle.  Edits of the
prompt and DMs to the submitter are modelled as reliable, matching the
spec's treatment of them as the observation channel.
-/

namespace Chantbot

/-- Binary payload of a fetched attachment (result of `attachment.read()`). -/
abbrev Payload := List Nat

/-- An attachment on the inbound DM.  `readResult` is the outcome of
`await attachment.read()`: `some bytes` when retrieval succeeds, `none`
when it raises. -/
structure Attachment where
  filename : String
  url : String
  readResult : Option Payload
  deriving DecidableEq

/-- A `discord.File` prepared for re-upload (bot.py line 172). -/
structure DFile where
  filename : String
  data : Payload
  deriving DecidableEq

/-- A resolved Discord channel (only its name is observable in messages). -/
structure Channel where
  name : String
  deriving DecidableEq

/-- Handle of a message successfully sent to a channel. -/
structure MsgHandle where
  jump_url : String
  deriving DecidableEq

/-- Error classes distinguished by the handlers in `on_message`:
`discord.Forbidden`, `discord.HTTPException`, and any other exception. -/
inductive SendErr where
  | forbidden
  | httpErr
  | other
  deriving DecidableEq

/-- How the confirmation view resolves: `view.confirmed_post` is
`True`, `False`, or `None` (timeout). -/
inductive Decision where
  | confirm
  | cancel
  | timedOut
  deriving DecidableEq

/-- The inbound private message (`discord.Message` fields used by the bot). -/
structure InMsg where
  authorId : Nat
  authorName : String
  content : String
  attachments : List Attachment
  createdAt : Nat
  fromBot : Bool
  isDM : Bool
  deriving DecidableEq

deriving instance DecidableEq for Except

/-- Oracle for the external calls the handler makes, in order:
whether `message.author.send(confirmation_text, view=view)` succeeds,
how the view resolves, what `bot.get_channel` returns for each channel id,
the outcome of the public-channel `send`, and the outcome of the
mod-log `send` (`none` = success). -/
structure Env where
  promptSendOk : Bool
  decision : Decision
  anonChannel : Option Channel
  modLogChannel : Option Channel
  publicSend : Except SendErr MsgHandle
  auditSend : Option SendErr
  deriving DecidableEq

/-- A message posted to the anonymous channel: optional embed description
plus attached files (bot.py lines 186-196). -/
structure PublicPost where
  embedDescription : Option String
  files : List DFile
  deriving DecidableEq

/-- The audit embed built for the mod-log channel (bot.py lines 209-230). -/
structure LogEmbed where
  title : String
  timestamp : Nat
  authorLine : String
  originalContent : String
  attachmentLinks : Option String
  postedLink : Option String
  footer : Option String
  deriving DecidableEq

/-- Trace of the handler's observable effects for one inbound message. -/
structure RelayResult where
  sessionCreated : Bool
  dms : List String
  promptEdits : List String
  publicPosts : List PublicPost
  auditPosts : List LogEmbed
  logs : List String
  uncaught : Bool
  deriving DecidableEq

/-- The empty trace. -/
def RelayResult.empty : RelayResult :=
  { sessionCreated := false, dms := [], promptEdits := [], publicPosts := [],
    auditPosts := [], logs := [], uncaught := false }

/-- bot.py line 134. -/
def rejectionNotice : String :=
  "Your message must contain text or an attachment to be posted."

/-- bot.py line 95 (confirm button acknowledgement). -/
def processingNotice : String := "Processing your request..."

/-- bot.py line 104 (cancel button). -/
def cancelNotice : String := "Request cancelled."

/-- bot.py line 78 (view timeout). -/
def timeoutNotice : String := "This anonymous post request has timed out."

/-- bot.py line 159 (anonymous channel unresolvable). -/
def channelMisconfigNotice : String :=
  "Failed to post: Anonymous channel not configured correctly. Admin notified."

/-- bot.py line 177 (per-attachment failure DM). -/
def attachmentFailNotice (filename : String) : String :=
  "Sorry, I couldn\x27t process the attachment: " ++ filename ++ ". It will be skipped."

/-- bot.py line 182 (empty after attachment failures). -/
def emptyAfterFailNotice : String :=
  "Your message was empty or attachments could not be processed. Nothing was posted."

/-- bot.py line 200 (success notice naming the destination channel). -/
def successNotice (channelName : String) : String :=
  "Your message has been posted anonymously to #" ++ channelName ++ "!"

/-- bot.py line 242 (`discord.Forbidden` on the public send). -/
def permFailNotice : String :=
  "Failed to post. Bot permission error in the anonymous channel. Admin notified."

/-- bot.py line 246 (`discord.HTTPException` on the public send). -/
def netFailNotice : String :=
  "Failed to post. A network error occurred. Please try again."

/-- bot.py line 251 (generic `except Exception` handler). -/
def unexpectedFailNotice : String :=
  "Failed to post due to an unexpected error. Admin has been notified."

/-- bot.py line 175 (operator log for a failed attachment read). -/
def attachReadFailLog (filename : String) : String :=
  "ERROR: Failed to read attachment " ++ filename

/-- bot.py line 157. -/
def anonChannelMissingLog : String :=
  "ERROR: Anonymous channel not found during post attempt."

/-- bot.py line 241. -/
def publicForbiddenLog : String :=
  "ERROR: Bot lacks Send Messages/Embed Links/Attach Files permission in Anonymous Channel"

/-- bot.py line 245. -/
def publicHttpLog : String :=
  "ERROR: Network error occurred sending to anonymous channel"

/-- bot.py line 249. -/
def criticalUnexpectedLog : String :=
  "CRITICAL: An unexpected error occurred during anonymous posting"

/-- bot.py line 207. -/
def modChannelMissingLog : String :=
  "ERROR: Mod log channel not found. Post was not logged."

/-- bot.py line 236. -/
def auditForbiddenLog : String :=
  "ERROR: Bot lacks Send Messages/Embed Links permission in Mod Log Channel"

/-- bot.py line 238. -/
def auditHttpLog : String :=
  "ERROR: Failed to send log to mod log channel"

/-- The attachment loop of bot.py lines 168-177: for each attachment, try
`read()`; a success is packaged into `files_to_send`, a failure produces a
DM notice naming the filename; the loop never aborts early. -/
def fetchAll : List Attachment → List DFile × List String
  | [] => ([], [])
  | att :: rest =>
    let r := fetchAll rest
    match att.readResult with
    | some bytes => (⟨att.filename, bytes⟩ :: r.1, r.2)
    | none => (r.1, attachmentFailNotice att.filename :: r.2)

/-- One line of the "Original Attachments" field (bot.py line 224). -/
def attachmentLinkLine (i : Nat) (att : Attachment) : String :=
  "[Attachment " ++ toString (i + 1) ++ "](" ++ att.url ++ ") (`" ++ att.filename ++ "`)"

/-- Construction of the mod-log embed (bot.py lines 209-230). -/
def mkLogEmbed (msg : InMsg) (anonName : String) (posted : Option MsgHandle) : LogEmbed :=
  { title := "Anonymous Post Logged"
    timestamp := msg.createdAt
    authorLine := msg.authorName ++ " (ID: " ++ toString msg.authorId ++ ")"
    originalContent := if msg.content = "" then "*(No text content)*" else msg.content
    attachmentLinks :=
      if msg.attachments = [] then none
      else some (String.intercalate "\n"
        (msg.attachments.enum.map (fun p => attachmentLinkLine p.1 p.2)))
    postedLink := posted.map
      (fun h => "[Jump to Message](" ++ h.jump_url ++ ") in #" ++ anonName)
    footer :=
      match posted with
      | some _ => none
      | none => some ("Posted to: #" ++ anonName ++ " (Error retrieving jump link)") }

/-- The user-visible failure notice for each public-send error class
(bot.py lines 240-252). -/
def publicFailNotice : SendErr → String
  | .forbidden => permFailNotice
  | .httpErr => netFailNotice
  | .other => unexpectedFailNotice

/-- The operator log line for each public-send error class. -/
def publicFailLog : SendErr → String
  | .forbidden => publicForbiddenLog
  | .httpErr => publicHttpLog
  | .other => criticalUnexpectedLog

/-- The operator log line for each mod-log-send error class:
`Forbidden` and `HTTPException` are caught by the inner handlers
(bot.py lines 235-238); any other exception escapes to the outer
`except Exception` handler (line 248). -/
def auditFailLog : SendErr → String
  | .forbidden => auditForbiddenLog
  | .httpErr => auditHttpLog
  | .other => criticalUnexpectedLog

/-- Effect of one of the three `except` handlers for the public send
(bot.py lines 240-252): log, then edit the prompt to a failure notice. -/
def publicFailResult (e : SendErr) (base : RelayResult) : RelayResult :=
  { base with
    logs := base.logs ++ [publicFailLog e],
    promptEdits := base.promptEdits ++ [publicFailNotice e] }

/-- The tail of the `try` block after the public send completed without
raising (bot.py lines 198-238): edit the prompt to the success notice,
then build and send the mod-log embed.  A `Forbidden` or `HTTPException`
from the mod-log send is caught and logged by the inner handlers; any
other exception propagates to the outer `except Exception` handler,
which logs and edits the prompt to the generic failure notice. -/
def afterPost (msg : InMsg) (env : Env) (anonCh : Channel) (posted : Option MsgHandle)
    (posts : List PublicPost) (base : RelayResult) : RelayResult :=
  let b := { base with
             publicPosts := posts,
             promptEdits := base.promptEdits ++ [successNotice anonCh.name] }
  match env.modLogChannel with
  | none => { b with logs := b.logs ++ [modChannelMissingLog] }
  | some _ =>
    let logEmbed := mkLogEmbed msg anonCh.name posted
    match env.auditSend with
    | none => { b with auditPosts := [logEmbed] }
    | some SendErr.forbidden => { b with logs := b.logs ++ [auditForbiddenLog] }
    | some SendErr.httpErr => { b with logs := b.logs ++ [auditHttpLog] }
    | some SendErr.other =>
        { b with
          logs := b.logs ++ [criticalUnexpectedLog],
          promptEdits := b.promptEdits ++ [unexpectedFailNotice] }

/-- The confirmed branch of `on_message` (bot.py lines 151-252): resolve
the anonymous channel, run the attachment loop, guard against an
effectively empty post, send to the anonymous channel (the branch
structure at lines 193-196 assigns `posted_anon_message` only when a send
actually runs), and handle success and each failure class. -/
def confirmedRelay (msg : InMsg) (env : Env) : RelayResult :=
  let base0 : RelayResult :=
    { RelayResult.empty with sessionCreated := true, promptEdits := [processingNotice] }
  match env.anonChannel with
  | none =>
      { base0 with
        logs := [anonChannelMissingLog],
        promptEdits := base0.promptEdits ++ [channelMisconfigNotice] }
  | some anonCh =>
    let fetched := fetchAll msg.attachments
    let base := { base0 with
                  dms := fetched.2,
                  logs := (msg.attachments.filter (fun a => a.readResult.isNone)).map
                    (fun a => attachReadFailLog a.filename) }
    if msg.content = "" ∧ fetched.1 = [] then
      { base with promptEdits := base.promptEdits ++ [emptyAfterFailNotice] }
    else if fetched.1 ≠ [] then
      match env.publicSend with
      | .ok h =>
          afterPost msg env anonCh (some h)
            [{ embedDescription := if msg.content = "" then none else some msg.content,
               files := fetched.1 }] base
      | .error e => publicFailResult e base
    else if msg.content ≠ "" then
      match env.publicSend with
      | .ok h =>
          afterPost msg env anonCh (some h)
            [{ embedDescription := some msg.content, files := [] }] base
      | .error e => publicFailResult e base
    else
      afterPost msg env anonCh none [] base

/-- The `on_message` handler (bot.py lines 124-264) restricted to its
observable effects.  A failed prompt send (line 145) is inside no `try`
block, so it escapes the handler: `uncaught := true`, and nothing else
happens. -/
def on_message (msg : InMsg) (env : Env) : RelayResult :=
  if msg.fromBot then RelayResult.empty
  else if ¬ msg.isDM then RelayResult.empty
  else if msg.content = "" ∧ msg.attachments = [] then
    { RelayResult.empty with dms := [rejectionNotice] }
  else if ¬ env.promptSendOk then
    { RelayResult.empty with uncaught := true }
  else
    match env.decision with
    | .confirm => confirmedRelay msg env
    | .cancel =>
        { RelayResult.empty with sessionCreated := true, promptEdits := [cancelNotice] }
    | .timedOut =>
        { RelayResult.empty with sessionCreated := true, promptEdits := [timeoutNotice] }

/-- State of one `ConfirmationView` (bot.py lines 56-105): the recorded
choice, whether the buttons were disabled, and whether `stop()` ran.
`timedOut` records that the terminal transition was the timeout. -/
structure Sess where
  authorId : Nat
  confirmed_post : Option Bool
  buttonsDisabled : Bool
  stopped : Bool
  timedOut : Bool
  deriving DecidableEq

/-- A freshly constructed view (bot.py lines 61-65). -/
def Sess.init (authorId : Nat) : Sess :=
  { authorId := authorId, confirmed_post := none, buttonsDisabled := false,
    stopped := false, timedOut := false }

/-- The two event sources racing for the session: a button click by some
user (choice `true` = confirm, `false` = cancel) and the deadline timer. -/
inductive SEvent where
  | click (actorId : Nat) (choice : Bool)
  | deadline
  deriving DecidableEq

/-- One event delivered to the view.  The event loop is single-threaded,
so each callback runs atomically.  A stopped view receives nothing
(`stop()` cancels the timeout task and deregisters the view).  A click is
admitted only when `interaction_check` passes, i.e. the actor is the
original author (bot.py lines 67-69); otherwise nothing changes. -/
def Sess.step (s : Sess) (e : SEvent) : Sess :=
  if s.stopped then s
  else
    match e with
    | .click actorId choice =>
        if actorId = s.authorId then
          { s with confirmed_post := some choice, buttonsDisabled := true, stopped := true }
        else s
    | .deadline =>
        { s with buttonsDisabled := true, stopped := true, timedOut := true }

/-- Deliver a list of events in order. -/
def Sess.run (s : Sess) : List SEvent → Sess
  | [] => s
  | e :: es => (s.step e).run es

/-- An event is decisive for a session owned by `authorId` when it would
resolve an awaiting session: a click by the author, or the deadline. -/
def SEvent.decisive (authorId : Nat) : SEvent → Bool
  | .click actorId _ => actorId == authorId
  | .deadline => true

/-- An event takes effect when the session is still awaiting a decision
and the event is decisive. -/
def Sess.takesEffect (s : Sess) (e : SEvent) : Bool :=
  !s.stopped && e.decisive s.authorId

/-- Number of events of a trace that take effect. -/
def Sess.countEffective (s : Sess) : List SEvent → Nat
  | [] => 0
  | e :: es => (if s.takesEffect e then 1 else 0) + (s.step e).countEffective es

/-- Sample inbound messages and environments used by the witnesses. -/
def sampleMsg : InMsg :=
  { authorId := 7, authorName := "alice", content := "hello", attachments := [],
    createdAt := 5, fromBot := false, isDM := true }

/-- An empty DM: no text, no attachments. -/
def sampleEmptyMsg : InMsg :=
  { authorId := 7, authorName := "alice", content := "", attachments := [],
    createdAt := 0, fromBot := false, isDM := true }

/-- An attachment whose retrieval fails. -/
def failAtt : Attachment :=
  { filename := "pic.png", url := "http://cdn/pic.png", readResult := none }

/-- A DM with no text and a single attachment whose retrieval fails. -/
def sampleMsgAllFail : InMsg :=
  { authorId := 7, authorName := "alice", content := "", attachments := [failAtt],
    createdAt := 5, fromBot := false, isDM := true }

/-- A fully healthy environment: prompt send succeeds, the user confirms,
both channels resolve, both sends succeed. -/
def sampleEnv : Env :=
  { promptSendOk := true, decision := Decision.confirm,
    anonChannel := some (Channel.mk "anonymous"),
    modLogChannel := some (Channel.mk "modlog"),
    publicSend := Except.ok (MsgHandle.mk "jump"), auditSend := none }

/-- Environment where the public-channel send fails with a network error. -/
def envPublicFail : Env :=
  { sampleEnv with publicSend := Except.error SendErr.httpErr }

/-- Environment where the mod-log send raises an exception that is neither
`Forbidden` nor `HTTPException`. -/
def envAuditOther : Env :=
  { sampleEnv with auditSend := some SendErr.other }

/-- Environment where the confirmation-prompt send itself fails. -/
def envNoPrompt : Env :=
  { sampleEnv with promptSendOk := false }

/-- The successful payloads are exactly the successfully read attachments,
packaged in original order. -/
theorem fetchAll_fst (l : List Attachment) :
    (fetchAll l).1 =
      l.filterMap (fun a => a.readResult.map (fun b => DFile.mk a.filename b)) := by
  induction l with
  | nil => rfl
  | cons a l ih =>
      cases h : a.readResult <;> simp [fetchAll, h, ih]

/-- The failure notices are exactly one per failed attachment, in order,
each built from that attachment's filename. -/
theorem fetchAll_snd (l : List Attachment) :
    (fetchAll l).2 = (l.filter (fun a => a.readResult.isNone)).map
      (fun a => attachmentFailNotice a.filename) := by
  induction l with
  | nil => rfl
  | cons a l ih =>
      cases h : a.readResult <;> simp [fetchAll, h, ih]

/-- Every reference is accounted for: payloads plus notices partition the
input count. -/
theorem fetchAll_length (l : List Attachment) :
    (fetchAll l).1.length + (fetchAll l).2.length = l.length := by
  induction l with
  | nil => rfl
  | cons a l ih =>
      cases h : a.readResult <;> simp [fetchAll, h] <;> omega

/-- Claim C5: for a sequence of N attachment references of which k fail
retrieval, the attachment loop yields exactly the N−k successful payloads
in original order, issues exactly k failure notices each identifying the
failed filename, does not abort on a failure (every reference is
processed), and never raises past this boundary (`fetchAll` is a total
function whose outcomes are all captured in the returned pair). -/
theorem attachment_transfer_isolation (l : List Attachment) :
    (fetchAll l).1 =
      l.filterMap (fun a => a.readResult.map (fun b => DFile.mk a.filename b)) ∧
    (fetchAll l).2 = (l.filter (fun a => a.readResult.isNone)).map
      (fun a => attachmentFailNotice a.filename) ∧
    (fetchAll l).2.length = (l.filter (fun a => a.readResult.isNone)).length ∧
    (fetchAll l).1.length =
      l.length - (l.filter (fun a => a.readResult.isNone)).length := by
  have h1 := fetchAll_fst l
  have h2 := fetchAll_snd l
  have h3 := fetchAll_length l
  have h4 : (fetchAll l).2.length = (l.filter (fun a => a.readResult.isNone)).length := by
    rw [h2, List.length_map]
  exact ⟨h1, h2, h4, by omega⟩

/-- Claim C7: an inbound DM with empty text and no attachments is rejected
upstream: the submitter is DMed the rejection notice, no Confirmation
Session is created, and nothing else happens. -/
theorem empty_submission_rejected (msg : InMsg) (env : Env)
    (hb : msg.fromBot = false) (hdm : msg.isDM = true)
    (hc : msg.content = "") (ha : msg.attachments = []) :
    on_message msg env = { RelayResult.empty with dms := [rejectionNotice] } := by
  simp [on_message, hb, hdm, hc, ha]

/-- Witness for C7 at a concrete empty DM. -/
theorem empty_submission_rejected_witness :
    on_message sampleEmptyMsg sampleEnv =
      { RelayResult.empty with dms := [rejectionNotice] } :=
  empty_submission_rejected sampleEmptyMsg sampleEnv rfl rfl rfl rfl

/-- A stopped view ignores every event. -/
theorem Sess.step_stopped (s : Sess) (e : SEvent) (h : s.stopped = true) :
    s.step e = s := by
  simp [Sess.step, h]

/-- A stopped view ignores every trace. -/
theorem Sess.run_stopped (s : Sess) (es : List SEvent) (h : s.stopped = true) :
    s.run es = s := by
  induction es with
  | nil => rfl
  | cons e es ih =>
      show (s.step e).run es = s
      rw [Sess.step_stopped s e h]
      exact ih

/-- An event that does not take effect leaves the state unchanged. -/
theorem Sess.step_of_not_takesEffect (s : Sess) (e : SEvent)
    (h : s.takesEffect e = false) : s.step e = s := by
  by_cases hs : s.stopped = true
  · exact Sess.step_stopped s e hs
  · have hs2 : s.stopped = false := by simpa using hs
    cases e with
    | click a c =>
        have hb : (a == s.authorId) = false := by
          simpa [Sess.takesEffect, SEvent.decisive, hs2] using h
        have ha : ¬ a = s.authorId := by simpa using hb
        simp [Sess.step, hs2, ha]
    | deadline => simp [Sess.takesEffect, SEvent.decisive, hs2] at h

/-- An event that takes effect stops the view. -/
theorem Sess.step_of_takesEffect (s : Sess) (e : SEvent)
    (h : s.takesEffect e = true) : (s.step e).stopped = true := by
  have hs : s.stopped = false := by
    cases hh : s.stopped
    · rfl
    · simp [Sess.takesEffect, hh] at h
  cases e with
  | click a c =>
      have hb : (a == s.authorId) = true := by
        simpa [Sess.takesEffect, SEvent.decisive, hs] using h
      have ha : a = s.authorId := by simpa using hb
      simp [Sess.step, hs, ha]
  | deadline => simp [Sess.step, hs]

/-- No event of any trace takes effect on a stopped view. -/
theorem Sess.countEffective_stopped (s : Sess) (es : List SEvent)
    (h : s.stopped = true) : s.countEffective es = 0 := by
  induction es with
  | nil => rfl
  | cons e es ih =>
      have h1 : s.takesEffect e = false := by simp [Sess.takesEffect, h]
      show (if s.takesEffect e then 1 else 0) + (s.step e).countEffective es = 0
      rw [Sess.step_stopped s e h]
      simp [h1, ih]

/-- Non-decisive events (clicks by anyone but the author) leave a fresh
session untouched. -/
theorem Sess.run_init_nondecisive (a : Nat) (es : List SEvent)
    (h : ∀ e ∈ es, e.decisive a = false) : (Sess.init a).run es = Sess.init a := by
  induction es with
  | nil => rfl
  | cons e es ih =>
      have h1 : e.decisive a = false := h e (List.mem_cons_self e es)
      have h2 : (Sess.init a).takesEffect e = false := by
        simp [Sess.takesEffect, Sess.init, h1]
      show ((Sess.init a).step e).run es = Sess.init a
      rw [Sess.step_of_not_takesEffect _ e h2]
      exact ih (fun x hx => h x (List.mem_cons_of_mem _ hx))

/-- Non-decisive events contribute no effective transition. -/
theorem Sess.countEffective_init_nondecisive (a : Nat) (es : List SEvent)
    (h : ∀ e ∈ es, e.decisive a = false) :
    (Sess.init a).countEffective es = 0 := by
  induction es with
  | nil => rfl
  | cons e es ih =>
      have h1 : e.decisive a = false := h e (List.mem_cons_self e es)
      have h2 : (Sess.init a).takesEffect e = false := by
        simp [Sess.takesEffect, Sess.init, h1]
      show (if (Sess.init a).takesEffect e then 1 else 0)
          + ((Sess.init a).step e).countEffective es = 0
      rw [Sess.step_of_not_takesEffect _ e h2]
      simp [h2, ih (fun x hx => h x (List.mem_cons_of_mem _ hx))]

/-- Delivering a concatenation of traces runs them in sequence. -/
theorem Sess.run_append (s : Sess) (xs ys : List SEvent) :
    s.run (xs ++ ys) = (s.run xs).run ys := by
  induction xs generalizing s with
  | nil => rfl
  | cons x xs ih =>
      show (s.step x).run (xs ++ ys) = ((s.step x).run xs).run ys
      exact ih (s.step x)

/-- Effective-transition counts add over concatenation. -/
theorem Sess.countEffective_append (s : Sess) (xs ys : List SEvent) :
    s.countEffective (xs ++ ys) =
      s.countEffective xs + (s.run xs).countEffective ys := by
  induction xs generalizing s with
  | nil => simp [Sess.countEffective, Sess.run]
  | cons x xs ih =>
      show (if s.takesEffect x then 1 else 0) + (s.step x).countEffective (xs ++ ys) = _
      rw [ih (s.step x)]
      show _ = (if s.takesEffect x then 1 else 0) + (s.step x).countEffective xs
          + ((s.step x).run xs).countEffective ys
      omega

/-- Claim C3: for any confirmation session, exactly one decisive event
(an author click — `decide` — or the deadline — `expire`) ever takes
effect: the first decisive event of the trace wins, it stops the session,
every event before it (clicks by non-authors) and after it (including a
near-simultaneous competing click or deadline in `es₂`) changes nothing,
and the trace contains exactly one effective terminal transition. -/
theorem session_single_winner (a : Nat) (es₁ es₂ : List SEvent) (e : SEvent)
    (h₁ : ∀ x ∈ es₁, x.decisive a = false) (h₂ : e.decisive a = true) :
    (Sess.init a).run (es₁ ++ e :: es₂) = (Sess.init a).step e ∧
    ((Sess.init a).step e).stopped = true ∧
    (Sess.init a).countEffective (es₁ ++ e :: es₂) = 1 := by
  have hrun := Sess.run_init_nondecisive a es₁ h₁
  have hte : (Sess.init a).takesEffect e = true := by
    simp [Sess.takesEffect, Sess.init, h₂]
  have hstop := Sess.step_of_takesEffect _ e hte
  refine ⟨?_, hstop, ?_⟩
  · rw [Sess.run_append, hrun]
    show ((Sess.init a).step e).run es₂ = _
    exact Sess.run_stopped _ _ hstop
  · rw [Sess.countEffective_append, Sess.countEffective_init_nondecisive a es₁ h₁, hrun]
    show 0 + ((if (Sess.init a).takesEffect e then 1 else 0)
        + ((Sess.init a).step e).countEffective es₂) = 1
    rw [Sess.countEffective_stopped _ _ hstop]
    simp [hte]

/-- Witness for C3: a stranger's click, then the author's confirm click
racing a deadline that arrives right after — the author's click is the
single winner and the deadline changes nothing. -/
theorem session_single_winner_witness :
    (Sess.init 1).run ([SEvent.click 2 true] ++ SEvent.click 1 true :: [SEvent.deadline]) =
      (Sess.init 1).step (SEvent.click 1 true) ∧
    ((Sess.init 1).step (SEvent.click 1 true)).stopped = true ∧
    (Sess.init 1).countEffective
      ([SEvent.click 2 true] ++ SEvent.click 1 true :: [SEvent.deadline]) = 1 :=
  session_single_winner 1 [SEvent.click 2 true] [SEvent.deadline] (SEvent.click 1 true)
    (by decide) (by decide)

/-- Claim C6: while a session awaits its decision, a click whose actor is
not the submission's author changes nothing (`interaction_check`,
bot.py lines 67-69, rejects it before any callback runs). -/
theorem non_author_click_noop (s : Sess) (a : Nat) (c : Bool)
    (hs : s.stopped = false) (ha : a ≠ s.authorId) :
    s.step (SEvent.click a c) = s := by
  simp [Sess.step, hs, ha]

/-- Witness for C6: a click by user 2 on user 1's fresh session. -/
theorem non_author_click_noop_witness :
    (Sess.init 1).step (SEvent.click 2 true) = Sess.init 1 :=
  non_author_click_noop (Sess.init 1) 2 true rfl (by decide)

/-- A valid DM whose prompt send succeeds and whose view resolves to
confirm runs the confirmed relay branch. -/
theorem on_message_confirm (msg : InMsg) (env : Env)
    (hb : msg.fromBot = false) (hdm : msg.isDM = true)
    (hne : ¬ (msg.content = "" ∧ msg.attachments = []))
    (hp : env.promptSendOk = true) (hd : env.decision = Decision.confirm) :
    on_message msg env = confirmedRelay msg env := by
  simp [on_message, hb, hdm, hne, hp, hd]

/-- Claim C1: if the send to the public channel fails — permission error,
transport error, or any other exception — then no Audit Record is ever
sent for that Submission, nothing was posted publicly, and the prompt is
edited to the matching failure notice (the Submission's outcome is
Failed). -/
theorem public_send_failure_no_audit (msg : InMsg) (env : Env) (ch : Channel) (e : SendErr)
    (hb : msg.fromBot = false) (hdm : msg.isDM = true)
    (hne : ¬ (msg.content = "" ∧ msg.attachments = []))
    (hp : env.promptSendOk = true) (hd : env.decision = Decision.confirm)
    (hch : env.anonChannel = some ch)
    (heff : ¬ (msg.content = "" ∧ (fetchAll msg.attachments).1 = []))
    (hsend : env.publicSend = Except.error e) :
    (on_message msg env).auditPosts = [] ∧
    (on_message msg env).publicPosts = [] ∧
    (on_message msg env).promptEdits = [processingNotice, publicFailNotice e] := by
  rw [on_message_confirm msg env hb hdm hne hp hd]
  by_cases hf : (fetchAll msg.attachments).1 = []
  · have hc : ¬ msg.content = "" := fun hcc => heff ⟨hcc, hf⟩
    simp [confirmedRelay, hch, hf, hc, hsend, publicFailResult, RelayResult.empty]
  · simp [confirmedRelay, hch, hf, heff, hsend, publicFailResult, RelayResult.empty]

/-- Witness for C1: a confirmed text submission hitting a network error
on the public send. -/
theorem public_send_failure_no_audit_witness :
    (on_message sampleMsg envPublicFail).auditPosts = [] ∧
    (on_message sampleMsg envPublicFail).publicPosts = [] ∧
    (on_message sampleMsg envPublicFail).promptEdits =
      [processingNotice, publicFailNotice SendErr.httpErr] :=
  public_send_failure_no_audit sampleMsg envPublicFail (Channel.mk "anonymous")
    SendErr.httpErr rfl rfl (by decide) rfl rfl rfl (by decide) rfl

/-- Claim C2: when the public post succeeds (and the audit channel is
reachable), the prompt is edited to the success notice naming the
destination channel, and exactly one Audit Record is sent, carrying the
original author identity, the original text, the original attachment
links, and the jump-link back-reference to the new public message. -/
theorem public_send_success_audit (msg : InMsg) (env : Env) (ch mch : Channel)
    (h : MsgHandle)
    (hb : msg.fromBot = false) (hdm : msg.isDM = true)
    (hne : ¬ (msg.content = "" ∧ msg.attachments = []))
    (hp : env.promptSendOk = true) (hd : env.decision = Decision.confirm)
    (hch : env.anonChannel = some ch) (hmod : env.modLogChannel = some mch)
    (heff : ¬ (msg.content = "" ∧ (fetchAll msg.attachments).1 = []))
    (hsend : env.publicSend = Except.ok h) (haud : env.auditSend = none) :
    (on_message msg env).promptEdits = [processingNotice, successNotice ch.name] ∧
    (on_message msg env).auditPosts = [mkLogEmbed msg ch.name (some h)] ∧
    (mkLogEmbed msg ch.name (some h)).authorLine =
      msg.authorName ++ " (ID: " ++ toString msg.authorId ++ ")" ∧
    (mkLogEmbed msg ch.name (some h)).originalContent =
      (if msg.content = "" then "*(No text content)*" else msg.content) ∧
    (mkLogEmbed msg ch.name (some h)).attachmentLinks =
      (if msg.attachments = [] then none
       else some (String.intercalate "\n"
         (msg.attachments.enum.map (fun p => attachmentLinkLine p.1 p.2)))) ∧
    (mkLogEmbed msg ch.name (some h)).postedLink =
      some ("[Jump to Message](" ++ h.jump_url ++ ") in #" ++ ch.name) := by
  rw [on_message_confirm msg env hb hdm hne hp hd]
  refine ⟨?_, ?_, rfl, rfl, rfl, rfl⟩ <;>
  · by_cases hf : (fetchAll msg.attachments).1 = []
    · have hc : ¬ msg.content = "" := fun hcc => heff ⟨hcc, hf⟩
      simp [confirmedRelay, hch, hf, hc, hsend, afterPost, hmod, haud]
    · simp [confirmedRelay, hch, hf, heff, hsend, afterPost, hmod, haud]

/-- Witness for C2: a confirmed text submission with a fully healthy
environment. -/
theorem public_send_success_audit_witness :
    (on_message sampleMsg sampleEnv).promptEdits =
      [processingNotice, successNotice (Channel.mk "anonymous").name] ∧
    (on_message sampleMsg sampleEnv).auditPosts =
      [mkLogEmbed sampleMsg (Channel.mk "anonymous").name (some (MsgHandle.mk "jump"))] ∧
    (mkLogEmbed sampleMsg (Channel.mk "anonymous").name
        (some (MsgHandle.mk "jump"))).authorLine =
      sampleMsg.authorName ++ " (ID: " ++ toString sampleMsg.authorId ++ ")" ∧
    (mkLogEmbed sampleMsg (Channel.mk "anonymous").name
        (some (MsgHandle.mk "jump"))).originalContent =
      (if sampleMsg.content = "" then "*(No text content)*" else sampleMsg.content) ∧
    (mkLogEmbed sampleMsg (Channel.mk "anonymous").name
        (some (MsgHandle.mk "jump"))).attachmentLinks =
      (if sampleMsg.attachments = [] then none
       else some (String.intercalate "\n"
         (sampleMsg.attachments.enum.map (fun p => attachmentLinkLine p.1 p.2)))) ∧
    (mkLogEmbed sampleMsg (Channel.mk "anonymous").name
        (some (MsgHandle.mk "jump"))).postedLink =
      some ("[Jump to Message](" ++ (MsgHandle.mk "jump").jump_url ++ ") in #"
        ++ (Channel.mk "anonymous").name) :=
  public_send_success_audit sampleMsg sampleEnv (Channel.mk "anonymous")
    (Channel.mk "modlog") (MsgHandle.mk "jump") rfl rfl (by decide) rfl rfl rfl rfl
    (by decide) rfl rfl

/-- Claim C4: a confirmed Submission with blank text all of whose
attachment retrievals fail is aborted: the prompt reports that nothing
was posted (outcome Failed), the public channel is never contacted, no
audit record is sent, and the submitter got one failure notice per
attachment. -/
theorem empty_after_failures_abort (msg : InMsg) (env : Env) (ch : Channel)
    (hb : msg.fromBot = false) (hdm : msg.isDM = true)
    (hc : msg.content = "") (hatts : msg.attachments ≠ [])
    (hfail : ∀ a ∈ msg.attachments, a.readResult = none)
    (hp : env.promptSendOk = true) (hd : env.decision = Decision.confirm)
    (hch : env.anonChannel = some ch) :
    (on_message msg env).publicPosts = [] ∧
    (on_message msg env).auditPosts = [] ∧
    (on_message msg env).promptEdits = [processingNotice, emptyAfterFailNotice] ∧
    (on_message msg env).dms =
      msg.attachments.map (fun a => attachmentFailNotice a.filename) := by
  have hne : ¬ (msg.content = "" ∧ msg.attachments = []) := fun hh => hatts hh.2
  rw [on_message_confirm msg env hb hdm hne hp hd]
  have hf : (fetchAll msg.attachments).1 = [] := by
    rw [fetchAll_fst]
    rw [List.filterMap_eq_nil_iff]
    intro a ha
    simp [hfail a ha]
  have hfilter : msg.attachments.filter (fun a => a.readResult.isNone) = msg.attachments := by
    rw [List.filter_eq_self]
    intro a ha
    simp [hfail a ha]
  have hsnd : (fetchAll msg.attachments).2 =
      msg.attachments.map (fun a => attachmentFailNotice a.filename) := by
    rw [fetchAll_snd, hfilter]
  simp [confirmedRelay, hch, hc, hf, hsnd, RelayResult.empty]

/-- Witness for C4: a confirmed DM with no text and one failing
attachment. -/
theorem empty_after_failures_abort_witness :
    (on_message sampleMsgAllFail sampleEnv).publicPosts = [] ∧
    (on_message sampleMsgAllFail sampleEnv).auditPosts = [] ∧
    (on_message sampleMsgAllFail sampleEnv).promptEdits =
      [processingNotice, emptyAfterFailNotice] ∧
    (on_message sampleMsgAllFail sampleEnv).dms =
      sampleMsgAllFail.attachments.map (fun a => attachmentFailNotice a.filename) :=
  empty_after_failures_abort sampleMsgAllFail sampleEnv (Channel.mk "anonymous")
    rfl rfl rfl (by decide) (by decide) rfl rfl rfl

/-- Counterexample to C8: the public post succeeds, then the mod-log send
raises an exception that is neither `Forbidden` nor `HTTPException`.  The
inner handlers (bot.py lines 235-238) do not catch it; the outer
`except Exception` (line 248) does, and edits the prompt to a failure
notice — so the audit-send failure is not invisible to the submitter, who
ends up seeing a failure notice despite the committed public post. -/
theorem audit_send_failure_cex :
    (on_message sampleMsg envAuditOther).publicPosts.length = 1 ∧
    (on_message sampleMsg envAuditOther).promptEdits =
      [processingNotice, successNotice "anonymous", unexpectedFailNotice] ∧
    (on_message sampleMsg envAuditOther).promptEdits.getLast? =
      some unexpectedFailNotice ∧
    unexpectedFailNotice ≠ successNotice "anonymous" := by
  decide

/-- Amended C8: after a successful public post, a `Forbidden` or
`HTTPException` failure of the audit send is logged only — the submitter
still sees the success notice and nothing else; any other exception from
the audit send escapes to the pipeline's generic handler, which logs it
and additionally edits the prompt to the generic failure notice.  In
every case no audit record is delivered, and the public post is neither
rolled back nor re-attempted (exactly one public post remains). -/
theorem audit_send_failure_behavior (msg : InMsg) (env : Env) (ch mch : Channel)
    (h : MsgHandle) (e : SendErr)
    (hb : msg.fromBot = false) (hdm : msg.isDM = true)
    (hne : ¬ (msg.content = "" ∧ msg.attachments = []))
    (hp : env.promptSendOk = true) (hd : env.decision = Decision.confirm)
    (hch : env.anonChannel = some ch) (hmod : env.modLogChannel = some mch)
    (heff : ¬ (msg.content = "" ∧ (fetchAll msg.attachments).1 = []))
    (hsend : env.publicSend = Except.ok h) (haud : env.auditSend = some e) :
    (on_message msg env).publicPosts.length = 1 ∧
    (on_message msg env).auditPosts = [] ∧
    (on_message msg env).logs =
      (msg.attachments.filter (fun a => a.readResult.isNone)).map
        (fun a => attachReadFailLog a.filename) ++ [auditFailLog e] ∧
    (on_message msg env).promptEdits =
      [processingNotice, successNotice ch.name] ++
        (if e = SendErr.other then [unexpectedFailNotice] else []) := by
  rw [on_message_confirm msg env hb hdm hne hp hd]
  by_cases hf : (fetchAll msg.attachments).1 = []
  · have hc : ¬ msg.content = "" := fun hcc => heff ⟨hcc, hf⟩
    cases e <;>
      simp [confirmedRelay, hch, hf, hc, hsend, afterPost, hmod, haud,
        auditFailLog, RelayResult.empty]
  · cases e <;>
      simp [confirmedRelay, hch, hf, heff, hsend, afterPost, hmod, haud,
        auditFailLog, RelayResult.empty]

/-- Witness for amended C8: audit send fails with an `HTTPException`;
the submitter sees only the success notice. -/
theorem audit_send_failure_behavior_witness :
    (on_message sampleMsg { sampleEnv with auditSend := some SendErr.httpErr
      }).publicPosts.length = 1 ∧
    (on_message sampleMsg { sampleEnv with auditSend := some SendErr.httpErr
      }).auditPosts = [] ∧
    (on_message sampleMsg { sampleEnv with auditSend := some SendErr.httpErr
      }).logs =
      (sampleMsg.attachments.filter (fun a => a.readResult.isNone)).map
        (fun a => attachReadFailLog a.filename) ++ [auditFailLog SendErr.httpErr] ∧
    (on_message sampleMsg { sampleEnv with auditSend := some SendErr.httpErr
      }).promptEdits =
      [processingNotice, successNotice (Channel.mk "anonymous").name] ++
        (if SendErr.httpErr = SendErr.other then [unexpectedFailNotice] else []) :=
  audit_send_failure_behavior sampleMsg
    { sampleEnv with auditSend := some SendErr.httpErr }
    (Channel.mk "anonymous") (Channel.mk "modlog") (MsgHandle.mk "jump")
    SendErr.httpErr rfl rfl (by decide) rfl rfl rfl rfl (by decide) rfl rfl

/-- Counterexample to C9: the confirmation-prompt send (bot.py line 145)
fails on a valid submission.  No `try` block protects it, so the
exception escapes the handler unhandled, and the submitter is never
informed that the Submission could not proceed (no DM at all is sent). -/
theorem prompt_send_failure_cex :
    (on_message sampleMsg envNoPrompt).uncaught = true ∧
    (on_message sampleMsg envNoPrompt).dms = [] ∧
    (on_message sampleMsg envNoPrompt).sessionCreated = false := by
  decide

/-- Amended C9: if sending the confirmation prompt fails, no Confirmation
Session is created and nothing is posted anywhere — but the submitter is
not informed, and the failure is left unhandled up to the task boundary
(it escapes `on_message`). -/
theorem prompt_send_failure_behavior (msg : InMsg) (env : Env)
    (hb : msg.fromBot = false) (hdm : msg.isDM = true)
    (hne : ¬ (msg.content = "" ∧ msg.attachments = []))
    (hp : env.promptSendOk = false) :
    on_message msg env = { RelayResult.empty with uncaught := true } := by
  simp [on_message, hb, hdm, hne, hp]

/-- Witness for amended C9 at a concrete valid DM. -/
theorem prompt_send_failure_behavior_witness :
    on_message sampleMsg envNoPrompt = { RelayResult.empty with uncaught := true } :=
  prompt_send_failure_behavior sampleMsg envNoPrompt rfl rfl (by decide) rfl

/-- Claim C10: on the success path the posted-message handle is always
present.  The effective-content guard (bot.py line 180) guarantees that
one of the two send branches (lines 193-196) runs, so after a successful
send `posted_anon_message` is the returned handle: every audit record
built after a successful post carries the jump-link back-reference, and
the defensive footer branch ("Error retrieving jump link", line 230) is
never taken.  When the audit send also succeeds, exactly that record is
delivered. -/
theorem success_path_jump_link (msg : InMsg) (env : Env) (ch mch : Channel)
    (h : MsgHandle)
    (hb : msg.fromBot = false) (hdm : msg.isDM = true)
    (hne : ¬ (msg.content = "" ∧ msg.attachments = []))
    (hp : env.promptSendOk = true) (hd : env.decision = Decision.confirm)
    (hch : env.anonChannel = some ch) (hmod : env.modLogChannel = some mch)
    (heff : ¬ (msg.content = "" ∧ (fetchAll msg.attachments).1 = []))
    (hsend : env.publicSend = Except.ok h) :
    ((on_message msg env).auditPosts = [] ∨
      (on_message msg env).auditPosts = [mkLogEmbed msg ch.name (some h)]) ∧
    (mkLogEmbed msg ch.name (some h)).postedLink =
      some ("[Jump to Message](" ++ h.jump_url ++ ") in #" ++ ch.name) ∧
    (mkLogEmbed msg ch.name (some h)).footer = none ∧
    (env.auditSend = none →
      (on_message msg env).auditPosts = [mkLogEmbed msg ch.name (some h)]) := by
  rw [on_message_confirm msg env hb hdm hne hp hd]
  refine ⟨?_, rfl, rfl, ?_⟩ <;>
  · first
    | (intro haud
       by_cases hf : (fetchAll msg.attachments).1 = []
       · have hc : ¬ msg.content = "" := fun hcc => heff ⟨hcc, hf⟩
         simp [confirmedRelay, hch, hf, hc, hsend, afterPost, hmod, haud]
       · simp [confirmedRelay, hch, hf, heff, hsend, afterPost, hmod, haud])
    | (by_cases hf : (fetchAll msg.attachments).1 = []
       · have hc : ¬ msg.content = "" := fun hcc => heff ⟨hcc, hf⟩
         cases haud : env.auditSend with
         | none =>
             right
             simp [confirmedRelay, hch, hf, hc, hsend, afterPost, hmod, haud]
         | some e =>
             left
             cases e <;>
               simp [confirmedRelay, hch, hf, hc, hsend, afterPost, hmod, haud,
                 RelayResult.empty]
       · cases haud : env.auditSend with
         | none =>
             right
             simp [confirmedRelay, hch, hf, heff, hsend, afterPost, hmod, haud]
         | some e =>
             left
             cases e <;>
               simp [confirmedRelay, hch, hf, heff, hsend, afterPost, hmod, haud,
                 RelayResult.empty])

/-- Witness for C10 in the healthy environment: the delivered audit
record carries the jump link and no defensive footer. -/
theorem success_path_jump_link_witness :
    (on_message sampleMsg sampleEnv).auditPosts =
      [mkLogEmbed sampleMsg (Channel.mk "anonymous").name (some (MsgHandle.mk "jump"))] ∧
    (mkLogEmbed sampleMsg (Channel.mk "anonymous").name
        (some (MsgHandle.mk "jump"))).postedLink =
      some ("[Jump to Message](" ++ (MsgHandle.mk "jump").jump_url ++ ") in #"
        ++ (Channel.mk "anonymous").name) ∧
    (mkLogEmbed sampleMsg (Channel.mk "anonymous").name
        (some (MsgHandle.mk "jump"))).footer = none :=
  have t := success_path_jump_link sampleMsg sampleEnv (Channel.mk "anonymous")
    (Channel.mk "modlog") (MsgHandle.mk "jump") rfl rfl (by decide) rfl rfl rfl rfl
    (by decide) rfl
  ⟨t.2.2.2 rfl, t.2.1, t.2.2.1⟩

end Chantbot
